import Mathlib

/-!
Verification of the `paralyze` process-lifecycle toolkit against its
natural-language specification.

Shallow embedding conventions:
* Python exceptions become the inductive type `Exc`; a fallible call returns
  `Except Exc α`.
* `threading.Event` flags are modelled as `Bool` values threaded explicitly.
* Wall-clock time is modelled with `ℚ` (seconds) or `Nat` (nanoseconds);
  `time.sleep` is assumed to sleep exactly the requested amount.
* Python `//` on ints is floor division, embedded as `Int.fdiv`.

Each definition carries a comment naming the source location it embeds.
-/

namespace Paralyze

/-- Exceptions raised by the embedded code.  `stopping` is the graceful-stop
condition `paralyze.core.Stopping`; `typeError` models Python's `TypeError`
(raised on a bad call binding); `assertionError` models a failed `assert`;
`failure n` stands for an arbitrary user/application exception. -/
inductive Exc where
  | stopping
  | typeError
  | assertionError
  | failure (code : Nat)
deriving DecidableEq, Repr

/-! ## Retryable (src/paralyze/context.py, `Retryable.__call__`, lines 296-325) -/

/-- Observable outcome of one `Retryable.__call__` invocation: how many times
the wrapped function was invoked, how many interruptible backoff sleeps were
performed, and the final result (`.ok` or the raised exception). -/
structure RetryOutcome (T : Type) where
  calls : Nat
  sleeps : Nat
  result : Except Exc T

/-- Embeds the `while count < self._max_retries` loop of
`Retryable.__call__` (context.py lines 296-325).  `remaining` is
`max_retries - count`; `fn k` is the result of the `k`-th invocation of the
wrapped function (0-indexed); `handler` is the error classifier
`self._error_handler`; `stop` is the state of the shared stopping event
(assumed constant over the call).  The exact backoff durations and jitter do
not affect the observable counts, so only the number of sleeps is recorded.
When the loop exits, the code runs `assert err is not None` and then
`raise err from err`. -/
def retryLoop {T : Type} (fn : Nat → Except Exc T) (handler : Exc → Bool)
    (stop : Bool) : Nat → Nat → Nat → Option Exc → RetryOutcome T
  | 0, calls, sleeps, err =>
    match err with
    | some e => ⟨calls, sleeps, .error e⟩
    | none => ⟨calls, sleeps, .error .assertionError⟩
  | remaining + 1, calls, sleeps, _err =>
    if stop then
      -- `self._ctx.maybe_stop()` raises `Stopping` at the top of the loop
      ⟨calls, sleeps, .error .stopping⟩
    else
      match fn calls with
      | .ok v => ⟨calls + 1, sleeps, .ok v⟩
      | .error e =>
        if handler e then
          -- classified retryable: remember the error, back off, loop
          retryLoop fn handler stop remaining (calls + 1) (sleeps + 1) (some e)
        else
          -- classifier said no: `raise exc from exc` immediately
          ⟨calls + 1, sleeps, .error e⟩

/-- `Retryable.__call__` with `self._max_retries = maxRetries`. -/
def Retryable.call {T : Type} (maxRetries : Nat) (handler : Exc → Bool)
    (fn : Nat → Except Exc T) (stop : Bool) : RetryOutcome T :=
  retryLoop fn handler stop maxRetries 0 0 none

/-- C3 counterexample: with `max_attempts = 3`, an always-true classifier and
a function that always raises `X = failure 7`, the code performs exactly 3
backoff sleeps, not the 2 the claim states (the sleep at context.py line 318
happens before the `count < max_retries` exhaustion check, so the final
failing attempt also backs off). -/
theorem retryable_two_sleeps_counterexample :
    (Retryable.call 3 (fun _ => true)
        (fun _ => (.error (.failure 7) : Except Exc Unit)) false).sleeps = 3 ∧
    ¬ (Retryable.call 3 (fun _ => true)
        (fun _ => (.error (.failure 7) : Except Exc Unit)) false).sleeps = 2 := by
  constructor
  · rfl
  · intro h
    simp [Retryable.call, retryLoop] at h

/-- C3 (amended): for every exception `X`, a Retryable with `max_attempts = 3`,
an always-true classifier and a function that always raises `X` re-raises `X`
after exactly 3 invocations of the function and exactly 3 interruptible
backoff sleeps. -/
theorem retryable_three_attempts (e : Exc) :
    Retryable.call 3 (fun _ => true)
        (fun _ => (.error e : Except Exc Unit)) false
      = ⟨3, 3, .error e⟩ := by
  rfl

/-- C8 counterexample: with `max_attempts = 0` the `while count < 0` loop body
never runs, so the wrapped function is invoked 0 times (not once) and the call
fails with `AssertionError` from `assert err is not None` (context.py line
322) rather than re-propagating the function's error. -/
theorem retryable_zero_attempts_counterexample :
    (Retryable.call 0 (fun _ => true)
        (fun _ => (.error (.failure 7) : Except Exc Unit)) false)
      = ⟨0, 0, .error .assertionError⟩ ∧
    Exc.assertionError ≠ Exc.failure 7 := by
  exact ⟨rfl, by decide⟩

/-- C8 (amended): `max_attempts = 1` invokes the function exactly once and,
after a single backoff sleep, re-propagates its classified-retryable error;
`max_attempts = 0` never invokes the function at all and fails with an
internal `AssertionError`. -/
theorem retryable_low_attempt_budget (e : Exc) :
    Retryable.call 1 (fun _ => true)
        (fun _ => (.error e : Except Exc Unit)) false = ⟨1, 1, .error e⟩ ∧
    Retryable.call 0 (fun _ => true)
        (fun _ => (.error e : Except Exc Unit)) false
      = ⟨0, 0, .error .assertionError⟩ := by
  exact ⟨rfl, rfl⟩

/-! ## ThreadPoolExecutor task wrapper (src/paralyze/core.py, `submit`, lines 188-214) -/

/-- Observable outcome of running one wrapped pool task: the state of the
shared stopping flag after the task ran, whether the user function body was
invoked, and the task's result as seen through its future. -/
structure SubmitOutcome (T : Type) where
  stopSet : Bool
  invoked : Bool
  result : Except Exc T

/-- Embeds the `wrap` closure built by `ThreadPoolExecutor.submit`
(core.py lines 194-212).  `s0` is the stopping flag when the task starts;
`duringSet` records whether some other thread sets the flag while the user
function runs; `fnResult` is what the user function would produce if invoked.
The wrapper: raises `Stopping` without invoking the function if the flag is
already set; re-raises `Stopping` unchanged; on any other error sets the flag
and re-raises; on success re-checks the flag and replaces the result with
`Stopping` if it became set. -/
def ThreadPoolExecutor.submitWrap {T : Type} (s0 duringSet : Bool)
    (fnResult : Except Exc T) : SubmitOutcome T :=
  if s0 then
    ⟨s0 || duringSet, false, .error .stopping⟩
  else
    match fnResult with
    | .error .stopping => ⟨s0 || duringSet, true, .error .stopping⟩
    | .error e => ⟨true, true, .error e⟩
    | .ok v =>
      if s0 || duringSet then ⟨s0 || duringSet, true, .error .stopping⟩
      else ⟨false, true, .ok v⟩

/-- C4: a pool task whose function raises a non-graceful (non-`Stopping`)
error sets the shared stopping flag and that error propagates to the task's
result; and any task run while the stopping flag is set fails with the
graceful-stop condition without its function body being invoked. -/
theorem threadpool_failure_contagion {T : Type} (e : Exc)
    (he : e ≠ Exc.stopping) (during : Bool) (fnResult : Except Exc T) :
    (ThreadPoolExecutor.submitWrap false during
        (.error e : Except Exc T)).stopSet = true ∧
    (ThreadPoolExecutor.submitWrap false during
        (.error e : Except Exc T)).result = .error e ∧
    ThreadPoolExecutor.submitWrap true during fnResult
      = ⟨true, false, .error .stopping⟩ := by
  refine ⟨?_, ?_, ?_⟩
  · cases e <;> simp_all [ThreadPoolExecutor.submitWrap]
  · cases e <;> simp_all [ThreadPoolExecutor.submitWrap]
  · simp [ThreadPoolExecutor.submitWrap]

/-- C4 witness: instantiation at `e = failure 0`, no concurrent set, and a
would-be successful function. -/
theorem threadpool_failure_contagion_witness :
    Exc.failure 0 ≠ Exc.stopping ∧
    ((ThreadPoolExecutor.submitWrap false false
        (.error (.failure 0) : Except Exc Unit)).stopSet = true ∧
     (ThreadPoolExecutor.submitWrap false false
        (.error (.failure 0) : Except Exc Unit)).result = .error (.failure 0) ∧
     ThreadPoolExecutor.submitWrap true false (.ok () : Except Exc Unit)
       = ⟨true, false, .error .stopping⟩) :=
  ⟨by decide, threadpool_failure_contagion (.failure 0) (by decide) false (.ok ())⟩

/-! ## Context binding (src/paralyze/context.py, `Context.bind`, lines 43-54) -/

/-- The `Context` dataclass (context.py lines 15-41).  The shared mutable
collaborators (`stopping`, `log`, `cfg`, `metrics`) are modelled by reference
identity: a `Nat` identifier stands for the referenced object, so field
equality below is reference equality in the source. -/
inductive Ctx where
  | mk (stopping log cfg metrics : Nat) (parent root : Option Ctx)

/-- The `stopping` field. -/
def Ctx.stopping : Ctx → Nat
  | .mk s _ _ _ _ _ => s

/-- The `log` field. -/
def Ctx.log : Ctx → Nat
  | .mk _ l _ _ _ _ => l

/-- The `cfg` field. -/
def Ctx.cfg : Ctx → Nat
  | .mk _ _ c _ _ _ => c

/-- The `metrics` field. -/
def Ctx.metrics : Ctx → Nat
  | .mk _ _ _ m _ _ => m

/-- The `parent` field. -/
def Ctx.parent : Ctx → Option Ctx
  | .mk _ _ _ _ p _ => p

/-- The `root` field. -/
def Ctx.root : Ctx → Option Ctx
  | .mk _ _ _ _ _ r => r

/-- `Context.bind` (context.py lines 43-54): a new `Context` with
`log = logger or self.log`, `parent = self`, `root = self.root or self`, and
the same `cfg`, `metrics`, `stopping` references.  (Loggers and contexts are
always truthy in Python, so `x or y` is `Option.getD` on the optional.) -/
def Ctx.bind (c : Ctx) (logger : Option Nat) : Ctx :=
  .mk c.stopping (logger.getD c.log) c.cfg c.metrics (some c)
    (some (c.root.getD c))

/-- The root reference of a bound context. -/
theorem Ctx.root_bind (c : Ctx) (l : Option Nat) :
    (c.bind l).root = some (c.root.getD c) := rfl

/-- Binding keeps the stopping reference. -/
theorem Ctx.stopping_bind (c : Ctx) (l : Option Nat) :
    (c.bind l).stopping = c.stopping := rfl

/-- Binding keeps the cfg reference. -/
theorem Ctx.cfg_bind (c : Ctx) (l : Option Nat) :
    (c.bind l).cfg = c.cfg := rfl

/-- Binding keeps the metrics reference. -/
theorem Ctx.metrics_bind (c : Ctx) (l : Option Nat) :
    (c.bind l).metrics = c.metrics := rfl

/-- A chain of successive `bind` calls, one list entry per call (`none` means
the `logger` argument was omitted). -/
def Ctx.bindChain (c : Ctx) : List (Option Nat) → Ctx
  | [] => c
  | l :: ls => Ctx.bindChain (c.bind l) ls

/-- Any bind chain starting from a context whose `root` is `some R` and whose
shared fields agree with `R` keeps `root = some R` and those fields. -/
theorem Ctx.bindChain_preserves (R : Ctx) (ls : List (Option Nat)) :
    ∀ c : Ctx, c.root = some R → c.stopping = R.stopping → c.cfg = R.cfg →
      c.metrics = R.metrics →
      (Ctx.bindChain c ls).root = some R ∧
      (Ctx.bindChain c ls).stopping = R.stopping ∧
      (Ctx.bindChain c ls).cfg = R.cfg ∧
      (Ctx.bindChain c ls).metrics = R.metrics := by
  induction ls with
  | nil => intro c h1 h2 h3 h4; exact ⟨h1, h2, h3, h4⟩
  | cons l ls ih =>
    intro c h1 h2 h3 h4
    exact ih (c.bind l) (by simp [Ctx.root_bind, h1])
      (by simpa [Ctx.stopping_bind]) (by simpa [Ctx.cfg_bind])
      (by simpa [Ctx.metrics_bind])

/-- C9: every context obtained from a root context `R` (one with
`root = none`) by a nonempty chain of `bind` calls has `root = some R` — the
originating root itself, never an intermediate — and shares `R`'s `stopping`,
`cfg` and `metrics` references. -/
theorem context_root_invariant (R : Ctx) (hR : R.root = none)
    (l : Option Nat) (ls : List (Option Nat)) :
    (Ctx.bindChain (R.bind l) ls).root = some R ∧
    (Ctx.bindChain (R.bind l) ls).stopping = R.stopping ∧
    (Ctx.bindChain (R.bind l) ls).cfg = R.cfg ∧
    (Ctx.bindChain (R.bind l) ls).metrics = R.metrics := by
  refine Ctx.bindChain_preserves R ls (R.bind l) ?_ rfl rfl rfl
  simp [Ctx.root_bind, hR]

/-- C9 witness: a concrete root bound twice. -/
theorem context_root_invariant_witness :
    (Ctx.mk 1 2 3 4 none none).root = none ∧
    ((Ctx.bindChain ((Ctx.mk 1 2 3 4 none none).bind none) [some 9]).root
        = some (Ctx.mk 1 2 3 4 none none) ∧
     (Ctx.bindChain ((Ctx.mk 1 2 3 4 none none).bind none) [some 9]).stopping
        = (Ctx.mk 1 2 3 4 none none).stopping ∧
     (Ctx.bindChain ((Ctx.mk 1 2 3 4 none none).bind none) [some 9]).cfg
        = (Ctx.mk 1 2 3 4 none none).cfg ∧
     (Ctx.bindChain ((Ctx.mk 1 2 3 4 none none).bind none) [some 9]).metrics
        = (Ctx.mk 1 2 3 4 none none).metrics) :=
  ⟨rfl, context_root_invariant (Ctx.mk 1 2 3 4 none none) rfl none [some 9]⟩

/-! ## Metrics: Point, TimeSeries, Counter, Gauge
(src/paralyze/metrics.py lines 31-348) -/

/-- A pending metric point (metrics.py `Point`, lines 31-127): an integer
value with optional start/end timestamps in nanoseconds.  Counter and Gauge
points are created by `self.point(val, end=...)`, which leaves the start
timestamp unset. -/
structure Pt where
  value : Int
  startTime : Option Nat
  endTime : Option Nat
deriving DecidableEq, Repr

/-- `TimeSeries.build` (metrics.py lines 221-248) restricted to its effect on
the pending-points list: it swaps the list for `[]` and returns `none` when
there were no pending points, otherwise the swapped-out points (which become
the built series' points). -/
def TimeSeries.buildPoints (points : List Pt) : Option (List Pt) × List Pt :=
  (if points.isEmpty then none else some points, [])

/-- The mutable state of a `Counter` (metrics.py lines 257-301): the running
integer total `value` and the inherited pending-points list. -/
structure CounterState where
  value : Int
  points : List Pt
deriving DecidableEq, Repr

/-- `Counter.inc` (metrics.py lines 274-280): add `delta` to the running
total. -/
def Counter.inc (s : CounterState) (delta : Int) : CounterState :=
  { s with value := s.value + delta }

/-- `Counter.build` (metrics.py lines 290-301): swap the running total to 0,
append one point holding the swapped value with `end = time.time_ns()` (here
the explicit argument `now`), then defer to `TimeSeries.build`.  Returns the
built points (if any) and the new counter state. -/
def Counter.build (s : CounterState) (now : Nat) :
    Option (List Pt) × CounterState :=
  let val := s.value
  let pts := s.points ++ [⟨val, none, some now⟩]
  let built := TimeSeries.buildPoints pts
  (built.1, ⟨0, built.2⟩)

/-- C5: on a counter with no pending points and total 0, `inc 5; inc 3;
build` yields exactly one point of value 8 and resets the running total to 0
with no pending points left; an immediately following `build` with no
intervening `inc` still yields exactly one point, of value 0. -/
theorem counter_build_delta (now1 now2 : Nat) :
    (Counter.build (Counter.inc (Counter.inc (CounterState.mk 0 []) 5) 3) now1).1
      = some [⟨8, none, some now1⟩] ∧
    (Counter.build (Counter.inc (Counter.inc (CounterState.mk 0 []) 5) 3) now1).2
      = ⟨0, []⟩ ∧
    (Counter.build
        (Counter.build (Counter.inc (Counter.inc (CounterState.mk 0 []) 5) 3) now1).2
        now2).1
      = some [⟨0, none, some now2⟩] := by
  refine ⟨?_, ?_, ?_⟩ <;> rfl

/-- The mutable state of a `Gauge` (metrics.py lines 304-348): the samples
recorded since the last export and the inherited pending-points list. -/
structure GaugeState where
  values : List Int
  points : List Pt
deriving DecidableEq, Repr

/-- `Gauge.set` (metrics.py lines 320-326): record one sample. -/
def Gauge.set (s : GaugeState) (v : Int) : GaugeState :=
  { s with values := s.values ++ [v] }

/-- `Gauge.build` (metrics.py lines 328-348): swap the sample list to empty,
compute `sum(values) // len(values)` (Python floor division, so `Int.fdiv`;
0 when no samples), append one point with that value and
`end = time.time_ns()` (here `now`), then defer to `TimeSeries.build`. -/
def Gauge.build (s : GaugeState) (now : Nat) :
    Option (List Pt) × GaugeState :=
  let vals := s.values
  let value : Int :=
    if 0 < vals.length then Int.fdiv vals.sum vals.length else 0
  let pts := s.points ++ [⟨value, none, some now⟩]
  let built := TimeSeries.buildPoints pts
  (built.1, ⟨[], built.2⟩)

/-- The mean the spec's words describe: the *integer-truncated* (rounded
toward zero, `Int.tdiv`) mean of the samples, 0 when there are none.
Modelled from the spec for comparison with `Gauge.build`, which uses Python's
floor division. -/
def specTruncatedMean (vals : List Int) : Int :=
  if 0 < vals.length then Int.tdiv vals.sum vals.length else 0

/-- The mean the code computes: the floor (`//`, `Int.fdiv`) mean of the
samples, 0 when there are none (metrics.py lines 338-341). -/
def floorMean (vals : List Int) : Int :=
  if 0 < vals.length then Int.fdiv vals.sum vals.length else 0

/-- C6 counterexample: for samples `[-1, -2]`, Python's `//` floors, so
`Gauge.build` emits a point of value `-2`, while the integer-truncated mean
the claim states is `-1`. -/
theorem gauge_truncated_mean_counterexample :
    (Gauge.build (Gauge.set (Gauge.set (GaugeState.mk [] []) (-1)) (-2)) 0).1
      = some [⟨-2, none, some 0⟩] ∧
    specTruncatedMean [-1, -2] = -1 ∧
    (-2 : Int) ≠ -1 := by
  refine ⟨rfl, ?_, by decide⟩
  decide

/-- C6 (amended): for every list of recorded samples, `Gauge.build` swaps the
sample list to empty and appends exactly one point whose value is the
*floor* mean of the samples (`sum // len`, rounded toward negative infinity;
0 if no samples were recorded); for example `set 10; set 20; build` yields
one point of value 15. -/
theorem gauge_build_floor_mean (vals : List Int) (pts : List Pt) (now : Nat) :
    (Gauge.build ⟨vals, pts⟩ now).2.values = [] ∧
    (Gauge.build ⟨vals, pts⟩ now).1
      = some (pts ++ [⟨floorMean vals, none, some now⟩]) ∧
    (Gauge.build ⟨vals, pts⟩ now).2.points = [] ∧
    (Gauge.build (Gauge.set (Gauge.set (GaugeState.mk [] []) 10) 20) now).1
      = some [⟨15, none, some now⟩] := by
  refine ⟨rfl, ?_, rfl, rfl⟩
  simp [Gauge.build, TimeSeries.buildPoints, floorMean]

/-! ## Export-loop batch retry (src/paralyze/metrics.py,
`Client._report_all_metrics`, lines 387-418) -/

/-- Outcome of one call to the external transport's `create_time_series`:
success, a transient error (`InternalServerError` / `DeadlineExceeded`), or
any other (fatal) error. -/
inductive Transport where
  | ok
  | transient
  | fatal
deriving DecidableEq, Repr

/-- Terminal state of the per-batch `while not created` loop. -/
inductive BatchResult where
  | created
  | transientRaised
  | fatalRaised
deriving DecidableEq, Repr

/-- Embeds the per-batch retry loop of `Client._report_all_metrics`
(metrics.py lines 398-418).  `outs` lists the transport outcome of each
successive `create_time_series` call; `count` is the code's transient-failure
counter.  Returns `(attempts, sleeps, result)`, or `none` if `outs` ran out
before the loop terminated.  On a transient error the counter is incremented
and the caught exception re-raised once `count > 5`; otherwise the loop
sleeps 1 interruptible second and retries the same batch.  Fatal errors are
not caught and propagate at once. -/
def Client.reportBatchLoop :
    List Transport → Nat → Nat → Nat → Option (Nat × Nat × BatchResult)
  | [], _, _, _ => none
  | o :: rest, count, attempts, sleeps =>
    match o with
    | .ok => some (attempts + 1, sleeps, .created)
    | .fatal => some (attempts + 1, sleeps, .fatalRaised)
    | .transient =>
      if count + 1 > 5 then some (attempts + 1, sleeps, .transientRaised)
      else Client.reportBatchLoop rest (count + 1) (attempts + 1) (sleeps + 1)

/-- The per-batch loop as entered by `_report_all_metrics`:
`created = False`, `count = 0`. -/
def Client.reportBatch (outs : List Transport) :
    Option (Nat × Nat × BatchResult) :=
  Client.reportBatchLoop outs 0 0 0

/-- C7 counterexample: a transport that fails transiently 5 times and then
succeeds.  The claim's "up to 5 attempts in total, after which the error
propagates fatally" demands a propagated error here, but the code only
re-raises once its counter exceeds 5, so the batch is accepted on a 6th
attempt. -/
theorem export_retry_five_attempts_counterexample :
    Client.reportBatch (List.replicate 5 .transient ++ [.ok])
      = some (6, 5, .created) ∧
    BatchResult.created ≠ BatchResult.transientRaised := by
  exact ⟨rfl, by decide⟩

/-- C7 (amended): a batch whose transport call fails transiently is retried
after a 1-second interruptible sleep, up to 6 attempts in total: six
consecutive transient failures propagate the error fatally (after 6 create
calls and 5 backoff sleeps), while a batch that fails transiently 4 times and
then succeeds is accepted on the 5th attempt without escalating. -/
theorem export_retry_six_attempts :
    Client.reportBatch (List.replicate 6 .transient)
      = some (6, 5, .transientRaised) ∧
    Client.reportBatch (List.replicate 4 .transient ++ [.ok])
      = some (5, 4, .created) := by
  exact ⟨rfl, rfl⟩

/-! ## Timestamp conversion (src/paralyze/metrics.py, `to_timestamp`,
lines 590-604) -/

/-- The `Timestamp` TypedDict (metrics.py lines 585-587). -/
structure Timestamp where
  seconds : Int
  nanos : Int
deriving DecidableEq, Repr

/-- `to_timestamp` (metrics.py lines 590-604): `seconds = now // 10**9` and
`nanos = (now // 10**9) - seconds` (Python `//` is `Int.fdiv`). -/
def to_timestamp (now : Int) : Timestamp :=
  let seconds := Int.fdiv now (10 ^ 9)
  ⟨seconds, Int.fdiv now (10 ^ 9) - seconds⟩

/-- C10: for every nanosecond input, the `nanos` field of the produced
timestamp is identically 0 — the expression `(now // 10**9) - seconds` is the
value just assigned to `seconds` minus itself — so the sub-second part of
every exported timestamp is discarded, only `seconds = now // 10**9`
survives. -/
theorem to_timestamp_nanos_zero (now : Int) :
    (to_timestamp now).nanos = 0 ∧
    (to_timestamp now).seconds = Int.fdiv now (10 ^ 9) := by
  exact ⟨sub_self _, rfl⟩

/-! ## wait_event (src/paralyze/context.py lines 86-110, calling
src/paralyze/core.py `wait`, lines 147-166) -/

/-- The body of `core.wait` (core.py lines 147-166), modelled over 5-second
polling slices: `stoppingAt k` (resp. `eventAt k`) says whether the stopping
(resp. awaited) event is observed set at slice `k`; `event.wait(5.0)` is
hard-coded to 5-second slices, so after slice `k` the elapsed time is
`5 * (k + 1)` seconds.  Returns `true` once the event is observed, `false`
when the stopping event is set or the timeout is exceeded; `fuel` bounds the
number of modelled slices (`none` = the loop is still running). -/
def waitCore (stoppingAt eventAt : Nat → Bool) (timeout : Option ℚ) :
    Nat → Nat → Option Bool
  | _, 0 => none
  | k, fuel + 1 =>
    if stoppingAt k then some false
    else if eventAt k then some true
    else
      match timeout with
      | some t =>
        if (5 : ℚ) * (k + 1) > t then some false
        else waitCore stoppingAt eventAt timeout (k + 1) fuel
      | none => waitCore stoppingAt eventAt timeout (k + 1) fuel

/-- The parameter names of `core.wait` (core.py lines 147-151):
`def wait(stopping, event, timeout=None)` — it declares no `interval`
parameter and no `**kwargs`. -/
def wait_paramNames : List String := ["stopping", "event", "timeout"]

/-- The keywords `Context.wait_event` passes to `core.wait` at context.py
lines 103-108: `core.wait(self.stopping, event, timeout=timeout,
interval=step)`. -/
def waitEventCallKeywords : List String := ["timeout", "interval"]

/-- Python call binding for keyword arguments: every supplied keyword must
name a declared parameter, otherwise the call raises `TypeError`. -/
def kwargsAccepted (params kws : List String) : Bool :=
  kws.all params.contains

/-- `Context.wait_event` (context.py lines 86-110): it invokes `core.wait`
with the keyword `interval=step`.  If the binding succeeded it would return
`core.wait`'s result; since `core.wait` accepts no such keyword, the call
raises `TypeError` before any polling, and the `finally: self.maybe_stop()`
re-raises the in-flight exception (context.py lines 77-84), so the
`TypeError` always propagates.  (`_step0` is the source's `step` parameter,
unused because the call never binds.) -/
def Context.wait_event (stoppingAt eventAt : Nat → Bool) (timeout : Option ℚ)
    (_step0 : ℚ) (fuel : Nat) : Except Exc (Option Bool) :=
  if kwargsAccepted wait_paramNames waitEventCallKeywords then
    .ok (waitCore stoppingAt eventAt timeout 0 fuel)
  else
    .error .typeError

/-- C1 (code bug): for every event trace, timeout, step and fuel,
`ctx.wait_event` raises `TypeError` instead of polling — `core.wait` declares
no `interval` parameter, so the keyword call at context.py line 107 never
binds and the claimed true/false polling result is never produced. -/
theorem wait_event_type_error (stoppingAt eventAt : Nat → Bool)
    (timeout : Option ℚ) (step0 : ℚ) (fuel : Nat) :
    Context.wait_event stoppingAt eventAt timeout step0 fuel
      = .error .typeError := by
  rfl

/-! ## interval (src/paralyze/core.py, `interval`, lines 108-131) -/

/-- The loop state of `core.interval` just after the `n`-th invocation of
`func` returns (0-indexed): `start` is the time at which that invocation
began, `clock` the current time, and `endVar` the value of the local variable
`end` (set to `time.time()` *before* the first call, and at the bottom of the
loop thereafter).  `p` is the `interval` argument and `d` the duration of one
`func` call; the stopping event is never set and `core.sleep` sleeps exactly
the requested amount.  Each step embeds one loop iteration (core.py lines
122-131): `start = time.time()`; `sleep_for = max(0.0, interval -
(end - start))`; `sleep`; `func`; `end = time.time()`. -/
def intervalState (p d : ℚ) : Nat → (ℚ × ℚ × ℚ)
  | 0 => (0, d, 0)
  | n + 1 =>
    let s := intervalState p d n
    let sleepFor := max 0 (p - (s.2.2 - s.2.1))
    let nextStart := s.2.1 + sleepFor
    (nextStart, nextStart + d, nextStart + d)

/-- The wall-clock time at which the `n`-th invocation of `func` starts. -/
def intervalStart (p d : ℚ) (n : Nat) : ℚ :=
  (intervalState p d n).1

/-- Closed form of the loop state for `interval = 1` and a `func` taking
`1/5` s: because `end` holds the *previous* end time while `start` is the
current time, `end - start` is `-d` on the first iteration and `0` after, so
the loop sleeps `p + d` then `p` — never `p - d`. -/
theorem intervalState_example (n : Nat) :
    intervalState 1 (1/5) (n + 1)
      = (7/5 + (6/5) * (n : ℚ), 8/5 + (6/5) * (n : ℚ),
         8/5 + (6/5) * (n : ℚ)) := by
  induction n with
  | zero => norm_num [intervalState, max_def]
  | succ n ih =>
    have step : intervalState 1 (1/5) (n + 1 + 1)
        = (let s := intervalState 1 (1/5) (n + 1)
           let sleepFor := max 0 (1 - (s.2.2 - s.2.1))
           let nextStart := s.2.1 + sleepFor
           (nextStart, nextStart + 1/5, nextStart + 1/5)) := rfl
    rw [step, ih]
    simp only [Prod.mk.injEq]
    norm_num
    constructor <;> first
      | trivial
      | ring

/-- C2 (code bug): with `interval = 1.0` and `func` taking `0.2` s per call,
the successive invocation starts are spaced `6/5` s apart (and the first gap
is `7/5` s), not the `1.0` s the drift-compensation claim states: the code's
`sleep_for = max(0.0, interval - (end - start))` has `end` (previous end
time) and `start` (current time) in the wrong order, so it sleeps
`interval + elapsed` instead of `interval - elapsed`. -/
theorem interval_spacing_bug :
    intervalStart 1 (1/5) 1 - intervalStart 1 (1/5) 0 = 7/5 ∧
    (∀ n : Nat, intervalStart 1 (1/5) (n + 2) - intervalStart 1 (1/5) (n + 1)
      = 6/5) ∧
    (6/5 : ℚ) ≠ 1 := by
  refine ⟨?_, ?_, by norm_num⟩
  · simp [intervalStart, intervalState_example 0, intervalState]
    norm_num
  · intro n
    have e2 : n + 2 = (n + 1) + 1 := rfl
    rw [intervalStart, intervalStart, e2, intervalState_example (n + 1),
      intervalState_example n]
    push_cast
    ring

end Paralyze
